import Mathlib

/-!
# Verification of `cmd/gomoteserver/gomoteserver.go` (golang.org/x/build)

Shallow embedding of the gomote server's front-door dispatcher and
subsystem-lifecycle orchestration, translated from the Go source:

* the HTTP↔gRPC protocol multiplexer (`grpcHandlerFunc`),
* the fallback status handler (`handleStatus`),
* the serve-mux registrations in `main` (`/reverse`, `/`),
* the SSH-server configuration closure (`configureSSHServer`),
* the tail of `main` (SSH start / deferred close / fatal exit semantics),
* the environment & auth-interceptor resolution block in `main`,
* the metadata queries performed by `main` and `mustStorageClient`,
* `mustLUCIConfigClient` and its 10-second construction timeout.

External collaborators (`remote.NewSSHServer`, `remote.SSHKeyPair`, the
metadata substrate, `buildenv`, `swarmclient.NewConfigClient`) are modelled
as oracle parameters: the embedding captures exactly the decisions the
source code makes over their observable results.
-/

/-! ## Requests, the protocol multiplexer and the status handler -/

/-- An inbound HTTP request, restricted to the fields the gomote server
inspects: `r.ProtoMajor`, the request headers (read via
`r.Header.Get "Content-Type"`) and `r.URL.Path`.  Header keys are stored
in the canonical form `net/http` uses for `Header.Get`. -/
structure Request where
  protoMajor : Nat
  headers : List (String × String)
  path : String
deriving DecidableEq

/-- `r.Header.Get key`: the first value stored under `key`, or `""` when the
header is absent. -/
def Request.headerGet (r : Request) (key : String) : String :=
  match r.headers.find? (fun p => p.fst == key) with
  | some p => p.snd
  | none => ""

/-- The two handlers `grpcHandlerFunc` chooses between. -/
inductive Handler where
  | grpc
  | fallback
deriving DecidableEq

/-- `strings.HasPrefix(s, pre)` from the Go standard library, on the
underlying character lists. -/
def stringsHasPre (s pre : String) : Bool :=
  pre.data.isPrefixOf s.data

/-- The routing condition tested by `grpcHandlerFunc`:
`r.ProtoMajor == 2 && strings.HasPrefix(r.Header.Get("Content-Type"), "application/grpc")`. -/
def grpcEligible (r : Request) : Bool :=
  r.protoMajor == 2 && stringsHasPre (r.headerGet "Content-Type") "application/grpc"

/-- `grpcHandlerFunc(gs, h)` from the source: requests whose transport is
HTTP/2 and whose declared content type begins with `application/grpc` go to
the gRPC server `gs`; everything else goes to the passed-in handler `h`. -/
def grpcHandlerFunc {α : Type} (gs : Request → α) (h : Request → α) (r : Request) : α :=
  if grpcEligible r then gs r else h r

/-- The observable parts of an HTTP response: status code, the
`Content-Type` header, and the body. -/
structure Response where
  status : Nat
  contentType : String
  body : String
deriving DecidableEq

/-- `http.NotFound`: status 404, `text/plain; charset=utf-8`,
body `404 page not found` followed by a newline. -/
def notFoundResponse : Response :=
  ⟨404, "text/plain; charset=utf-8", "404 page not found\n"⟩

/-- `handleStatus` from the source: any path other than `/` is answered by
`http.NotFound`; the root path gets a 200 `text/plain` response whose body
is exactly `gomote status page placeholder` (an unstarted response that is
first written to carries status 200). -/
def handleStatus (r : Request) : Response :=
  if r.path ≠ "/" then notFoundResponse
  else ⟨200, "text/plain", "gomote status page placeholder"⟩

/-- Where the primary listener finally dispatches a request. -/
inductive Dispatch where
  | reverseHandler
  | grpcServer
  | statusHandler
deriving DecidableEq

/-- The serve mux built in `main`:
`mux.HandleFunc("/reverse", pool.HandleReverse)` and
`mux.HandleFunc("/", grpcHandlerFunc(grpcServer, handleStatus))`.
With these two patterns, `http.ServeMux` matches the exact (cleaned) path
`/reverse` and sends every other path to the `/` handler, which is the
multiplexer wrapping the gRPC server and the status fallback. -/
def serveRequest (r : Request) : Dispatch :=
  if r.path = "/reverse" then Dispatch.reverseHandler
  else grpcHandlerFunc (fun _ => Dispatch.grpcServer) (fun _ => Dispatch.statusHandler) r

/-- A request that satisfies the gRPC routing conditions but addresses the
`/reverse` path. -/
def grpcReverseReq : Request :=
  ⟨2, [("Content-Type", "application/grpc")], "/reverse"⟩

/-- An HTTP/2 gRPC request on the root path (content type as in the spec's
end-to-end scenario). -/
def grpcRootReq : Request :=
  ⟨2, [("Content-Type", "application/grpc+proto")], "/"⟩

/-- A plain HTTP/1.1 browser-style request for the status page. -/
def plainRootReq : Request :=
  ⟨1, [("Content-Type", "text/html")], "/"⟩

/-! ## The SSH server configuration closure -/

/-- What the `configureSSHServer` closure in `main` decides: either
`remote.NewSSHServer` is invoked with a concrete key pair, or a
configuration error is returned and no server is constructed. -/
inductive SSHConfigOutcome where
  | startServer (privKey pubKey : String)
  | configError (msg : String)
deriving DecidableEq

/-- `configureSSHServer` from `main`.  `privateKey`/`publicKey` are the two
secret flag values; `mode` is the `-mode` flag; `sshKeyPair` is the result
of the external generator `remote.SSHKeyPair()` (an error, or a fresh
private/public pair).  Mirrors the source: both secrets non-empty ⇒ start
with the supplied pair; otherwise, outside dev mode ⇒ the fixed
configuration error; in dev mode ⇒ start with a generated pair, or report
the generation failure. -/
def configureSSHServer (privateKey publicKey mode : String)
    (sshKeyPair : Except String (String × String)) : SSHConfigOutcome :=
  if privateKey ≠ "" ∧ publicKey ≠ "" then
    SSHConfigOutcome.startServer privateKey publicKey
  else if mode ≠ "dev" then
    SSHConfigOutcome.configError "SSH key pair is not configured"
  else
    match sshKeyPair with
    | Except.error e =>
        SSHConfigOutcome.configError ("unable to generate development SSH key pair: " ++ e)
    | Except.ok (priKey, pubKey) => SSHConfigOutcome.startServer priKey pubKey

/-! ## The tail of `main`: SSH start, deferred close, fatal exit

After constructing the gRPC server and the mux, `main` runs
`configureSSHServer`; on error it logs and continues, otherwise it starts
the SSH listener concurrently and *defers* a close of it.  It then blocks
in `log.Fatalln(https.ListenAndServe(...))`.  We embed this as a small
statement language with Go's `defer`/`os.Exit` semantics: a normal return
from `main` runs the deferred functions in LIFO order, while `log.Fatalln`
calls `os.Exit`, which terminates the process *without* running deferred
functions (Go language / `os` package semantics). -/

/-- Observable events of the tail of `main`. -/
inductive Event where
  | logSSHConfigError (msg : String)
  | startShellServer (privKey pubKey : String)
  | servePrimary
  | logFatal
  | closeShellServer
  | processExit
deriving DecidableEq

/-- Statements of the embedded fragment of `main`. -/
inductive Stmt where
  | emit (e : Event)
  | pushDefer (e : Event)
  | fatal
deriving DecidableEq

/-- Execute a statement list with a stack of deferred events.
Reaching the end of `main` runs the deferred functions (most recent first)
and then the process exits; `Stmt.fatal` (`log.Fatalln`) logs and exits via
`os.Exit(1)`, which does not run deferred functions. -/
def execStmts : List Stmt → List Event → List Event
  | [], defers => defers ++ [Event.processExit]
  | Stmt.emit e :: rest, defers => e :: execStmts rest defers
  | Stmt.pushDefer e :: rest, defers => execStmts rest (e :: defers)
  | Stmt.fatal :: _, _ => [Event.logFatal, Event.processExit]

/-- The inputs that determine the tail of `main`. -/
structure MainInputs where
  privateKey : String
  publicKey : String
  mode : String
  sshKeyPair : Except String (String × String)

/-- The statement list for the tail of `main`, translated from the source:
on a configuration error the error is logged (`log.Printf`) and nothing
else happens for the shell subsystem; on success the shell server is
started as a concurrent task and its close is deferred.  Either way `main`
then blocks serving the primary listener and, when that returns, exits via
`log.Fatalln`. -/
def mainTailStmts (i : MainInputs) : List Stmt :=
  (match configureSSHServer i.privateKey i.publicKey i.mode i.sshKeyPair with
   | SSHConfigOutcome.configError msg => [Stmt.emit (Event.logSSHConfigError msg)]
   | SSHConfigOutcome.startServer priKey pubKey =>
       [Stmt.emit (Event.startShellServer priKey pubKey),
        Stmt.pushDefer Event.closeShellServer])
  ++ [Stmt.emit Event.servePrimary, Stmt.fatal]

/-- The event trace of the tail of `main`. -/
def mainTrace (i : MainInputs) : List Event :=
  execStmts (mainTailStmts i) []

/-! ## Environment resolution and the auth interceptors

The block in `main` guarded by
`*buildEnvName == "" && *mode != "dev" && metadata.OnGCE()`. -/

/-- The gRPC server options appended inside the managed-environment branch. -/
inductive AuthOpt where
  | unaryIAPInterceptor
  | streamIAPInterceptor
deriving DecidableEq

/-- Outcome of the resolution block: either `main` proceeds with a bucket
name and a list of server options, or it dies in `log.Fatalf`. -/
inductive ResolveOutcome where
  | ok (gomoteBucket : String) (opts : List AuthOpt)
  | fatal (msg : String)
deriving DecidableEq

/-- Inputs of the resolution block.  `buildEnvName` and `mode` are the two
flags; `onGCE` is what `metadata.OnGCE()` reports; `projectIDResult` is the
result of `metadata.ProjectID()`; `iapServiceID projectID backend` is
`buildenv.ByProjectID(projectID).IAPServiceID(backend)` (empty string when
unresolvable); `gomoteTransferBucket projectID` is
`buildenv.ByProjectID(projectID).GomoteTransferBucket`. -/
structure ResolveInputs where
  buildEnvName : String
  mode : String
  onGCE : Bool
  projectIDResult : Except String String
  iapServiceID : String → String → String
  gomoteTransferBucket : String → String

/-- The managed-deployment condition of the source's `if`. -/
def managedContext (i : ResolveInputs) : Prop :=
  i.buildEnvName = "" ∧ i.mode ≠ "dev" ∧ i.onGCE = true

instance (i : ResolveInputs) : Decidable (managedContext i) := by
  unfold managedContext; infer_instance

/-- The environment/auth resolution block of `main`, translated from the
source: outside the managed condition, `opts` stays empty and
`gomoteBucket` stays `""`; inside it, a project-ID failure is fatal, an
empty IAP service ID for backend `coordinator-internal-iap` is fatal, and
otherwise exactly one unary and one streaming IAP interceptor are
appended. -/
def resolveEnvAuth (i : ResolveInputs) : ResolveOutcome :=
  if managedContext i then
    match i.projectIDResult with
    | Except.error e => ResolveOutcome.fatal ("metadata.ProjectID() = " ++ e)
    | Except.ok projectID =>
        if i.iapServiceID projectID "coordinator-internal-iap" = "" then
          ResolveOutcome.fatal
            "unable to retrieve Service ID for backend service=coordinator-internal-iap"
        else
          ResolveOutcome.ok (i.gomoteTransferBucket projectID)
            [AuthOpt.unaryIAPInterceptor, AuthOpt.streamIAPInterceptor]
  else ResolveOutcome.ok "" []

/-! ## Metadata substrate queries -/

/-- The two kinds of query the program can make against the cloud metadata
substrate. -/
inductive MetaQuery where
  | onGCECheck
  | projectIDLookup
deriving DecidableEq

/-- The metadata queries issued by the resolution block, respecting Go's
left-to-right short-circuit evaluation of
`*buildEnvName == "" && *mode != "dev" && metadata.OnGCE()`:
`metadata.OnGCE()` is called only when the two flag tests pass, and
`metadata.ProjectID()` only when `OnGCE()` also returned true. -/
def resolveMetaQueries (i : ResolveInputs) : List MetaQuery :=
  if i.buildEnvName = "" ∧ i.mode ≠ "dev" then
    MetaQuery.onGCECheck ::
      (if i.onGCE then [MetaQuery.projectIDLookup] else [])
  else []

/-- `mustStorageClient` begins with `if metadata.OnGCE()`, unconditionally
performing the on-substrate check; it never looks up the project identity
itself. -/
def mustStorageClientMetaQueries : List MetaQuery :=
  [MetaQuery.onGCECheck]

/-- All metadata queries the process makes on the `main` path: the
resolution block runs first; `mustStorageClient()` is only reached when the
resolution block did not exit fatally. -/
def programMetaQueries (i : ResolveInputs) : List MetaQuery :=
  resolveMetaQueries i ++
    match resolveEnvAuth i with
    | ResolveOutcome.fatal _ => []
    | ResolveOutcome.ok _ _ => mustStorageClientMetaQueries

/-! ## The LUCI config client -/

/-- The deadline, in seconds, that `mustLUCIConfigClient` installs on the
context passed to `swarmclient.NewConfigClient`
(`context.WithTimeout(context.Background(), 10*time.Second)`). -/
def luciConfigTimeoutSeconds : Nat := 10

/-- Result of a `must*` constructor: the client was obtained, or the
process died in `log.Fatalf` with the given message. -/
inductive MustResult where
  | ok
  | fatalLog (msg : String)
deriving DecidableEq

/-- `mustLUCIConfigClient` from the source.  `newConfigClient` is the
external `swarmclient.NewConfigClient`, modelled as a function of the
deadline (in seconds) carried by the context it receives; a deadline expiry
surfaces as an `Except.error`, like any other construction failure.  Any
error is fatal. -/
def mustLUCIConfigClient (newConfigClient : Nat → Except String Unit) : MustResult :=
  match newConfigClient luciConfigTimeoutSeconds with
  | Except.error e => MustResult.fatalLog ("unable to create LUCI config client: " ++ e)
  | Except.ok _ => MustResult.ok

/-! ## Sanity examples (concrete evaluations of the embedding) -/

example : serveRequest grpcRootReq = Dispatch.grpcServer := by decide
example : serveRequest plainRootReq = Dispatch.statusHandler := by decide
example : serveRequest grpcReverseReq = Dispatch.reverseHandler := by decide
example : handleStatus plainRootReq =
    ⟨200, "text/plain", "gomote status page placeholder"⟩ := by decide
example : (handleStatus ⟨1, [], "/foo"⟩).status = 404 := by decide
example : configureSSHServer "priv" "pub" "prod" (Except.error "no gen") =
    SSHConfigOutcome.startServer "priv" "pub" := by decide
example : configureSSHServer "" "" "prod" (Except.ok ("p", "q")) =
    SSHConfigOutcome.configError "SSH key pair is not configured" := by decide
example : configureSSHServer "" "" "dev" (Except.ok ("p", "q")) =
    SSHConfigOutcome.startServer "p" "q" := by decide
example : mainTrace ⟨"priv", "pub", "prod", Except.ok ("p", "q")⟩ =
    [Event.startShellServer "priv" "pub", Event.servePrimary,
     Event.logFatal, Event.processExit] := by decide
example : mainTrace ⟨"", "", "prod", Except.ok ("p", "q")⟩ =
    [Event.logSSHConfigError "SSH key pair is not configured", Event.servePrimary,
     Event.logFatal, Event.processExit] := by decide
example :
    resolveEnvAuth ⟨"", "prod", true, Except.ok "go-project",
      fun _ _ => "svc-123", fun _ => "bucket"⟩ =
    ResolveOutcome.ok "bucket" [AuthOpt.unaryIAPInterceptor, AuthOpt.streamIAPInterceptor] := by
  decide
example :
    resolveEnvAuth ⟨"", "dev", true, Except.ok "go-project",
      fun _ _ => "svc-123", fun _ => "bucket"⟩ = ResolveOutcome.ok "" [] := by decide
example :
    programMetaQueries ⟨"", "dev", true, Except.ok "go-project",
      fun _ _ => "svc-123", fun _ => "bucket"⟩ = [MetaQuery.onGCECheck] := by decide
example : mustLUCIConfigClient (fun _ => Except.error "context deadline exceeded") =
    MustResult.fatalLog "unable to create LUCI config client: context deadline exceeded" := by
  decide

/-! ## Concrete inputs reused by several statements -/

/-- Flag/secret inputs under which the shell server starts (both secrets
supplied, production mode); the generator result is irrelevant here. -/
def shellConfiguredInputs : MainInputs :=
  ⟨"priv", "pub", "prod", Except.error "unused"⟩

/-- A managed-cloud run: no explicit env flag, prod mode, on GCE, project
identity and IAP service ID both resolvable. -/
def managedInputs : ResolveInputs :=
  ⟨"", "prod", true, Except.ok "go-project", fun _ _ => "svc-123", fun _ => "bucket"⟩

/-- A dev-mode run that nevertheless happens on GCE, with the same oracles
as `managedInputs`. -/
def devInputs : ResolveInputs :=
  ⟨"", "dev", true, Except.ok "go-project", fun _ _ => "svc-123", fun _ => "bucket"⟩

/-! ## Claims -/

/-- Claim C1, counterexample.  The claim as stated quantifies over every
inbound request on the primary listener and asserts that the gRPC routing
conditions alone decide the dispatch, with no path signal participating.
This is false: the serve mux routes the exact path `/reverse` to
`pool.HandleReverse` before the multiplexer is consulted, so the concrete
request `grpcReverseReq` (HTTP/2, content type `application/grpc`, path
`/reverse`) satisfies the gRPC conditions yet is not dispatched to the
gRPC server. -/
theorem listener_wide_grpc_iff_refuted :
    ¬ (∀ r : Request, serveRequest r = Dispatch.grpcServer ↔ grpcEligible r = true) := by
  intro h
  have hc : serveRequest grpcReverseReq = Dispatch.grpcServer :=
    (h grpcReverseReq).mpr (by decide)
  exact absurd hc (by decide)

/-- Claim C1, amended.  For every request whose path is not exactly
`/reverse` (i.e. every request the serve mux hands to the multiplexer),
the request is dispatched to the gRPC server iff its HTTP protocol major
version is 2 and its Content-Type begins with `application/grpc`; every
other such request goes to the fallback status handler; and among these
requests, no signal other than the protocol major version and the
Content-Type header participates: any two of them agreeing on those two
fields receive the same dispatch. -/
theorem multiplexer_routing :
    ∀ r : Request, r.path ≠ "/reverse" →
      (serveRequest r = Dispatch.grpcServer ↔ grpcEligible r = true) ∧
      (grpcEligible r = false → serveRequest r = Dispatch.statusHandler) ∧
      (∀ s : Request, s.path ≠ "/reverse" → r.protoMajor = s.protoMajor →
        r.headerGet "Content-Type" = s.headerGet "Content-Type" →
        serveRequest r = serveRequest s) := by
  intro r hr
  refine ⟨?_, ?_, ?_⟩
  · unfold serveRequest grpcHandlerFunc
    rw [if_neg hr]
    by_cases h : grpcEligible r
    · simp [h]
    · simp [h]
  · intro h
    unfold serveRequest grpcHandlerFunc
    rw [if_neg hr, if_neg (by simp [h])]
  · intro s hs hp hc
    unfold serveRequest grpcHandlerFunc
    rw [if_neg hr, if_neg hs]
    have he : grpcEligible r = grpcEligible s := by
      unfold grpcEligible
      rw [hp, hc]
    rw [he]

/-- Claim C1, witness for the amended theorem: a root-path HTTP/2 gRPC
request reaches the gRPC server, and a root-path plain request reaches the
status handler. -/
theorem multiplexer_routing_witness :
    serveRequest grpcRootReq = Dispatch.grpcServer ∧
    serveRequest plainRootReq = Dispatch.statusHandler :=
  ⟨(multiplexer_routing grpcRootReq (by decide)).1.mpr (by decide),
   (multiplexer_routing plainRootReq (by decide)).2.1 (by decide)⟩

/-- Claim C2.  The fallback status handler answers the exact path `/` with
status 200, content type `text/plain` and the fixed body
`gomote status page placeholder`, and answers every other path with
status 404. -/
theorem handleStatus_contract :
    ∀ r : Request,
      (r.path = "/" →
        handleStatus r = ⟨200, "text/plain", "gomote status page placeholder"⟩) ∧
      (r.path ≠ "/" → (handleStatus r).status = 404) := by
  intro r
  constructor
  · intro h
    unfold handleStatus
    rw [if_neg (by simp [h])]
  · intro h
    unfold handleStatus
    rw [if_pos h]
    rfl

/-- Claim C2, witness: evaluation on the root path and on `/debug`. -/
theorem handleStatus_contract_witness :
    handleStatus plainRootReq = ⟨200, "text/plain", "gomote status page placeholder"⟩ ∧
    (handleStatus ⟨1, [], "/debug"⟩).status = 404 :=
  ⟨(handleStatus_contract plainRootReq).1 rfl,
   (handleStatus_contract ⟨1, [], "/debug"⟩).2 (by decide)⟩

/-- Claim C3.  The SSH configuration decision: both secrets non-empty ⇒
the server is started with the supplied pair, whatever the mode; both
secrets empty in dev mode ⇒ the server is started with the freshly
generated pair (when generation succeeds); both secrets empty outside dev
mode ⇒ the fixed configuration error and no server start. -/
theorem configureSSHServer_decision :
    ∀ (priv pub m : String) (gen : Except String (String × String)),
      (priv ≠ "" → pub ≠ "" →
        configureSSHServer priv pub m gen = SSHConfigOutcome.startServer priv pub) ∧
      (priv = "" → pub = "" → m = "dev" → ∀ p q, gen = Except.ok (p, q) →
        configureSSHServer priv pub m gen = SSHConfigOutcome.startServer p q) ∧
      (priv = "" → pub = "" → m ≠ "dev" →
        configureSSHServer priv pub m gen =
          SSHConfigOutcome.configError "SSH key pair is not configured") := by
  intro priv pub m gen
  refine ⟨?_, ?_, ?_⟩
  · intro h1 h2
    unfold configureSSHServer
    rw [if_pos ⟨h1, h2⟩]
  · intro h1 h2 h3 p q hgen
    subst h1; subst h2; subst h3; subst hgen
    rfl
  · intro h1 h2 h3
    unfold configureSSHServer
    rw [if_neg (by simp [h1]), if_pos h3]

/-- Claim C3, witness: one concrete run of each row of the decision
table. -/
theorem configureSSHServer_decision_witness :
    configureSSHServer "priv" "pub" "prod" (Except.error "e") =
      SSHConfigOutcome.startServer "priv" "pub" ∧
    configureSSHServer "" "" "dev" (Except.ok ("p", "q")) =
      SSHConfigOutcome.startServer "p" "q" ∧
    configureSSHServer "" "" "prod" (Except.ok ("p", "q")) =
      SSHConfigOutcome.configError "SSH key pair is not configured" :=
  ⟨(configureSSHServer_decision "priv" "pub" "prod" (Except.error "e")).1
      (by decide) (by decide),
   (configureSSHServer_decision "" "" "dev" (Except.ok ("p", "q"))).2.1
      rfl rfl rfl "p" "q" rfl,
   (configureSSHServer_decision "" "" "prod" (Except.ok ("p", "q"))).2.2
      rfl rfl (by decide)⟩

/-- Claim C4.  When `configureSSHServer` reports a configuration error,
`main` only logs it: the shell server is never started, and execution
proceeds to serve the primary listener (the full trace is the log line,
the primary serve, and the eventual fatal exit). -/
theorem ssh_config_failure_not_fatal :
    ∀ (i : MainInputs) (msg : String),
      configureSSHServer i.privateKey i.publicKey i.mode i.sshKeyPair =
        SSHConfigOutcome.configError msg →
      mainTrace i = [Event.logSSHConfigError msg, Event.servePrimary,
        Event.logFatal, Event.processExit] ∧
      (∀ p q, Event.startShellServer p q ∉ mainTrace i) ∧
      Event.servePrimary ∈ mainTrace i := by
  intro i msg h
  have ht : mainTrace i = [Event.logSSHConfigError msg, Event.servePrimary,
      Event.logFatal, Event.processExit] := by
    unfold mainTrace mainTailStmts
    rw [h]
    rfl
  refine ⟨ht, ?_, ?_⟩
  · intro p q
    rw [ht]
    simp
  · rw [ht]
    simp

/-- Claim C4, witness: the trace of a prod-mode run with no secrets. -/
theorem ssh_config_failure_not_fatal_witness :
    mainTrace ⟨"", "", "prod", Except.ok ("p", "q")⟩ =
      [Event.logSSHConfigError "SSH key pair is not configured", Event.servePrimary,
       Event.logFatal, Event.processExit] :=
  (ssh_config_failure_not_fatal ⟨"", "", "prod", Except.ok ("p", "q")⟩
    "SSH key pair is not configured" (by decide)).1

/-- Claim C5.  Whenever the resolution block lets `main` proceed, the
server-option list is non-empty iff the managed condition held and the
project identity and a non-empty IAP service ID were resolved; a non-empty
list is exactly one unary plus one streaming IAP interceptor; and outside
the managed condition the list is empty. -/
theorem authPolicy_nonempty_iff_managed :
    ∀ (i : ResolveInputs) (bucket : String) (opts : List AuthOpt),
      resolveEnvAuth i = ResolveOutcome.ok bucket opts →
      (opts ≠ [] ↔ (managedContext i ∧ ∃ projectID,
          i.projectIDResult = Except.ok projectID ∧
          i.iapServiceID projectID "coordinator-internal-iap" ≠ "")) ∧
      (opts ≠ [] → opts = [AuthOpt.unaryIAPInterceptor, AuthOpt.streamIAPInterceptor]) ∧
      (¬ managedContext i → opts = []) := by
  intro i bucket opts h
  unfold resolveEnvAuth at h
  by_cases hm : managedContext i
  · rw [if_pos hm] at h
    split at h
    · exact absurd h (by simp)
    · rename_i projectID hpid
      by_cases hsid : i.iapServiceID projectID "coordinator-internal-iap" = ""
      · rw [if_pos hsid] at h
        exact absurd h (by simp)
      · rw [if_neg hsid] at h
        injection h with hb ho
        refine ⟨⟨fun _ => ⟨hm, projectID, hpid, hsid⟩, fun _ => ?_⟩, fun _ => ho.symm, ?_⟩
        · rw [← ho]
          simp
        · intro hcontra
          exact absurd hm hcontra
  · rw [if_neg hm] at h
    injection h with hb ho
    refine ⟨⟨fun hne => absurd ho.symm hne, fun hc => absurd hc.1 hm⟩,
      fun hne => absurd ho.symm hne, fun _ => ho.symm⟩

/-- Claim C5, witness: the managed run yields exactly the two
interceptors, and the dev-mode run yields none. -/
theorem authPolicy_nonempty_iff_managed_witness :
    ([AuthOpt.unaryIAPInterceptor, AuthOpt.streamIAPInterceptor] : List AuthOpt) =
      [AuthOpt.unaryIAPInterceptor, AuthOpt.streamIAPInterceptor] ∧
    ([] : List AuthOpt) = [] :=
  ⟨(authPolicy_nonempty_iff_managed managedInputs "bucket"
      [AuthOpt.unaryIAPInterceptor, AuthOpt.streamIAPInterceptor] (by decide)).2.1
      (by decide),
   (authPolicy_nonempty_iff_managed devInputs "" [] (by decide)).2.2 (by decide)⟩

/-- Claim C6, counterexample.  The claim says that with mode `dev` the
program never queries the cloud metadata substrate.  It is false: the
resolution block indeed skips all metadata calls, but `mustStorageClient`
(called unconditionally from `main`) begins with `metadata.OnGCE()`, so a
dev-mode run still performs the on-substrate check. -/
theorem dev_mode_queries_metadata :
    ¬ (∀ i : ResolveInputs, i.mode = "dev" → programMetaQueries i = []) := by
  intro h
  have hq : programMetaQueries devInputs = [] := h devInputs rfl
  exact absurd hq (by decide)

/-- Claim C6, amended.  With mode `dev`, the environment/auth resolution
block performs no metadata query at all (Go short-circuits the guard
before `metadata.OnGCE()`) and always resolves the local-development
outcome (no interceptors, empty bucket); the program never looks up the
project identity; but it still performs exactly one on-substrate check,
inside `mustStorageClient`. -/
theorem dev_mode_resolver_no_metadata :
    ∀ i : ResolveInputs, i.mode = "dev" →
      resolveMetaQueries i = [] ∧
      resolveEnvAuth i = ResolveOutcome.ok "" [] ∧
      programMetaQueries i = [MetaQuery.onGCECheck] ∧
      MetaQuery.projectIDLookup ∉ programMetaQueries i := by
  intro i h
  have hnm : ¬ (i.buildEnvName = "" ∧ i.mode ≠ "dev") := fun hc => hc.2 h
  have hm : ¬ managedContext i := fun hc => hc.2.1 h
  have h1 : resolveMetaQueries i = [] := by
    unfold resolveMetaQueries
    rw [if_neg hnm]
  have h2 : resolveEnvAuth i = ResolveOutcome.ok "" [] := by
    unfold resolveEnvAuth
    rw [if_neg hm]
  have h3 : programMetaQueries i = [MetaQuery.onGCECheck] := by
    unfold programMetaQueries
    rw [h1, h2]
    rfl
  refine ⟨h1, h2, h3, ?_⟩
  rw [h3]
  decide

/-- Claim C6, witness: the dev-mode run on GCE. -/
theorem dev_mode_resolver_no_metadata_witness :
    resolveMetaQueries devInputs = [] ∧
    programMetaQueries devInputs = [MetaQuery.onGCECheck] :=
  ⟨(dev_mode_resolver_no_metadata devInputs rfl).1,
   (dev_mode_resolver_no_metadata devInputs rfl).2.2.1⟩

/-- Claim C7.  The claim says a close of the shell server is attempted on
every exit path after a successful start.  The code registers the close
with `defer`, but the only exit path of `main` is
`log.Fatalln(https.ListenAndServe(...))`, and `log.Fatalln` terminates via
`os.Exit`, which does not run deferred functions.  Concretely: with both
secrets supplied the shell server starts and the deferred close is
registered, yet the trace of the run contains no close event before the
process exits. -/
theorem deferred_close_skipped_on_fatal_exit :
    Event.startShellServer "priv" "pub" ∈ mainTrace shellConfiguredInputs ∧
    Stmt.pushDefer Event.closeShellServer ∈ mainTailStmts shellConfiguredInputs ∧
    Event.closeShellServer ∉ mainTrace shellConfiguredInputs ∧
    Event.processExit ∈ mainTrace shellConfiguredInputs := by
  decide

/-- Claim C8.  `mustLUCIConfigClient` hands `swarmclient.NewConfigClient`
a context whose deadline is exactly 10 seconds, and any construction error
— a deadline expiry included — is fatal, while success yields the
client. -/
theorem luci_config_client_timeout_and_fatal :
    luciConfigTimeoutSeconds = 10 ∧
    ∀ newConfigClient : Nat → Except String Unit,
      (∀ e, newConfigClient luciConfigTimeoutSeconds = Except.error e →
        mustLUCIConfigClient newConfigClient =
          MustResult.fatalLog ("unable to create LUCI config client: " ++ e)) ∧
      (∀ u, newConfigClient luciConfigTimeoutSeconds = Except.ok u →
        mustLUCIConfigClient newConfigClient = MustResult.ok) := by
  refine ⟨rfl, ?_⟩
  intro f
  constructor
  · intro e he
    unfold mustLUCIConfigClient
    rw [he]
  · intro u hu
    unfold mustLUCIConfigClient
    rw [hu]

/-- Claim C8, witness: a constructor that times out is fatal; one that
succeeds is not. -/
theorem luci_config_client_timeout_and_fatal_witness :
    mustLUCIConfigClient (fun _ => Except.error "context deadline exceeded") =
      MustResult.fatalLog ("unable to create LUCI config client: " ++
        "context deadline exceeded") ∧
    mustLUCIConfigClient (fun _ => Except.ok ()) = MustResult.ok :=
  ⟨(luci_config_client_timeout_and_fatal.2
      (fun _ => Except.error "context deadline exceeded")).1 "context deadline exceeded" rfl,
   (luci_config_client_timeout_and_fatal.2 (fun _ => Except.ok ())).2 () rfl⟩

/-- Claim C9.  Every request whose path is exactly `/reverse` is
dispatched to the reverse-buildlet handler and reaches neither the gRPC
server nor the status fallback, whatever its protocol version and
headers. -/
theorem reverse_path_routing :
    ∀ r : Request, r.path = "/reverse" →
      serveRequest r = Dispatch.reverseHandler ∧
      serveRequest r ≠ Dispatch.grpcServer ∧
      serveRequest r ≠ Dispatch.statusHandler := by
  intro r h
  unfold serveRequest
  rw [if_pos h]
  exact ⟨rfl, by decide, by decide⟩

/-- Claim C9, witness: even a request satisfying the gRPC routing
conditions goes to the reverse handler when its path is `/reverse`. -/
theorem reverse_path_routing_witness :
    grpcEligible grpcReverseReq = true ∧
    serveRequest grpcReverseReq = Dispatch.reverseHandler :=
  ⟨by decide, (reverse_path_routing grpcReverseReq rfl).1⟩

/-- Claim C10.  With exactly one of the two SSH secrets supplied,
`configureSSHServer` behaves exactly as with both missing: same outcome as
the empty-secrets call, the configuration error outside dev mode, and in
dev mode a start with the generated pair, the single supplied key being
ignored. -/
theorem single_secret_behaves_as_missing :
    ∀ (priv pub m : String) (gen : Except String (String × String)),
      (priv = "" ∨ pub = "") →
      configureSSHServer priv pub m gen = configureSSHServer "" "" m gen ∧
      (m ≠ "dev" →
        configureSSHServer priv pub m gen =
          SSHConfigOutcome.configError "SSH key pair is not configured") ∧
      (m = "dev" → ∀ p q, gen = Except.ok (p, q) →
        configureSSHServer priv pub m gen = SSHConfigOutcome.startServer p q) := by
  intro priv pub m gen h
  have hno : ¬ (priv ≠ "" ∧ pub ≠ "") := fun hc => h.elim hc.1 hc.2
  have hno0 : ¬ (("" : String) ≠ "" ∧ ("" : String) ≠ "") := fun hc => hc.1 rfl
  refine ⟨?_, ?_, ?_⟩
  · unfold configureSSHServer
    rw [if_neg hno, if_neg hno0]
  · intro hm
    unfold configureSSHServer
    rw [if_neg hno, if_pos hm]
  · intro hm p q hgen
    subst hm; subst hgen
    unfold configureSSHServer
    rw [if_neg hno, if_neg (by simp)]

/-- Claim C10, witness: a supplied private key alone still yields the
configuration error in prod mode, and a supplied public key alone is
ignored in dev mode in favour of the generated pair. -/
theorem single_secret_behaves_as_missing_witness :
    configureSSHServer "priv" "" "prod" (Except.ok ("p", "q")) =
      SSHConfigOutcome.configError "SSH key pair is not configured" ∧
    configureSSHServer "" "pub" "dev" (Except.ok ("p", "q")) =
      SSHConfigOutcome.startServer "p" "q" :=
  ⟨(single_secret_behaves_as_missing "priv" "" "prod" (Except.ok ("p", "q"))
      (Or.inr rfl)).2.1 (by decide),
   (single_secret_behaves_as_missing "" "pub" "dev" (Except.ok ("p", "q"))
      (Or.inl rfl)).2.2 rfl "p" "q" rfl⟩
